import Mathlib

/-!
# TornadoSimulation: `src/main.cpp`

A shallow embedding of `main.cpp`.  The program is one linear procedure that
talks to three libraries (GLFW, the GL loader and Dear ImGui).  Every call the
program makes to one of them, every write to `std::cerr` and every file-stream
operation is recorded, in program order, as a `Call`; the answers of the
outside world (does `glfwInit` succeed, does the shader compile, what does the
user do in a frame) are inputs of the model.  `main` maps those inputs to the
list of calls performed and the exit status.
-/

namespace TornadoSimulation

/-! ## Constants -/

/-- The type of the `float` literals of the program.  The program performs no
arithmetic on them; all literals in the source (`0.0f`, `1.0f`, `-1.0f`) are
exact. -/
abbrev GLfloat := Rat

def WINDOW_WIDTH : Int := 640
def WINDOW_HEIGHT : Int := 480
def INFO_LOG_BUFFER_SIZE : Nat := 512

/-- Value of `EXIT_SUCCESS` in `<cstdlib>`. -/
def EXIT_SUCCESS : Int := 0
/-- Value of `EXIT_FAILURE` in `<cstdlib>`. -/
def EXIT_FAILURE : Int := 1
/-- Value of `GLFW_TRUE` in `GLFW/glfw3.h`. -/
def GLFW_TRUE : Int := 1
/-- Value of `GLFW_KEY_ESCAPE` in `GLFW/glfw3.h`. -/
def GLFW_KEY_ESCAPE : Int := 256
/-- Value of `GLFW_PRESS` in `GLFW/glfw3.h`. -/
def GLFW_PRESS : Int := 1
/-- Size of a `float` and of an `unsigned int` in bytes. -/
def sizeofScalar : Nat := 4

/-! ## The calls the program makes -/

/-- The GPU object variables of `main`. -/
inductive Handle where
  | VAO | VBO | EBO | vertexShader | fragmentShader | program
  deriving DecidableEq, Repr

/-- The GL enumerants that occur in `main`. -/
inductive GLenum where
  | GL_ARRAY_BUFFER | GL_ELEMENT_ARRAY_BUFFER | GL_STATIC_DRAW | GL_FLOAT
  | GL_VERTEX_SHADER | GL_FRAGMENT_SHADER | GL_COMPILE_STATUS | GL_LINK_STATUS
  | GL_TRIANGLES | GL_UNSIGNED_INT | GL_COLOR_BUFFER_BIT
  deriving DecidableEq, Repr

/-- The window hints set in `main`. -/
inductive WindowHint where
  | GLFW_CONTEXT_VERSION_MAJOR | GLFW_CONTEXT_VERSION_MINOR | GLFW_OPENGL_PROFILE
  deriving DecidableEq, Repr

/-- The value given to a window hint. -/
inductive HintValue where
  | int (n : Int)
  | GLFW_OPENGL_CORE_PROFILE
  deriving DecidableEq, Repr

/-- The two `std::ifstream` variables of `main`. -/
inductive Stream where
  | vertexShaderFile | fragmentShaderFile
  deriving DecidableEq, Repr

/-- The client array handed to `glBufferData`. -/
inductive BufferData where
  | floats (xs : List GLfloat)
  | uints (xs : List Nat)
  deriving DecidableEq

/-- One observable action of the program: a library call, a write to
`std::cerr`, or an operation on one of the two file streams. -/
inductive Call where
  | glfwInit
  /-- One statement writing to `std::cerr`; the text includes the line end
  written by `std::endl`. -/
  | cerr (message : String)
  | glfwWindowHint (hint : WindowHint) (value : HintValue)
  | glfwCreateWindow (width height : Int) (title : String)
  | glfwTerminate
  | glfwMakeContextCurrent
  | glfwSetKeyCallback
  | glfwSetFramebufferSizeCallback
  | gladLoadGL
  | glViewport (x y width height : Int)
  | IMGUI_CHECKVERSION
  | ImGui_CreateContext
  | ImGui_ConfigFlags_NavEnableKeyboard
  | ImGui_ImplGlfw_InitForOpenGL (install_callbacks : Bool)
  | ImGui_ImplOpenGL3_Init
  | glGenVertexArrays (h : Handle)
  | glGenBuffers (h : Handle)
  | glBindVertexArray (h : Option Handle)
  | glBindBuffer (target : GLenum) (h : Option Handle)
  | glBufferData (target : GLenum) (size : Nat) (data : BufferData) (usage : GLenum)
  | glVertexAttribPointer (index size : Nat) (ty : GLenum) (normalized : Bool)
      (stride offset : Nat)
  | glEnableVertexAttribArray (index : Nat)
  | ifstream_exceptions (s : Stream)
  | ifstream_open (s : Stream) (path : String)
  | ifstream_rdbuf (s : Stream)
  | ifstream_close (s : Stream)
  | glCreateShader (ty : GLenum) (h : Handle)
  | glShaderSource (h : Handle) (source : String)
  | glCompileShader (h : Handle)
  | glGetShaderiv (h : Handle) (pname : GLenum)
  | glGetShaderInfoLog (h : Handle) (bufSize : Nat)
  | glDeleteShader (h : Handle)
  | glCreateProgram (h : Handle)
  | glAttachShader (prog shader : Handle)
  | glLinkProgram (h : Handle)
  | glGetProgramiv (h : Handle) (pname : GLenum)
  | glGetProgramInfoLog (h : Handle) (bufSize : Nat)
  | glDeleteProgram (h : Handle)
  | glDeleteVertexArrays (h : Handle)
  | glDeleteBuffers (h : Handle)
  | glfwWindowShouldClose
  | ImGui_ImplOpenGL3_NewFrame
  | ImGui_ImplGlfw_NewFrame
  | ImGui_NewFrame
  | ImGui_Begin (name : String)
  | ImGui_End
  | ImGui_Text (text : String)
  | ImGui_ColorPicker3 (label : String)
  | glfwPollEvents
  | glfwSetWindowShouldClose (value : Int)
  | glClearColor (r g b a : GLfloat)
  | glClear (mask : GLenum)
  | glUseProgram (h : Handle)
  | glGetUniformLocation (h : Handle) (name : String)
  | glUniform3f (location : Int) (v0 v1 v2 : GLfloat)
  | glDrawElements (mode : GLenum) (count : Nat) (ty : GLenum) (offset : Nat)
  | ImGui_Render
  | ImGui_GetDrawData
  | ImGui_ImplOpenGL3_RenderDrawData
  | glfwSwapBuffers
  | ImGui_ImplOpenGL3_Shutdown
  | ImGui_ImplGlfw_Shutdown
  | ImGui_DestroyContext

/-! ## The outside world -/

/-- The answers of the environment to the set-up part of `main`. -/
structure Outcomes where
  /-- `glfwInit()` returned true. -/
  glfwInitOk : Bool
  /-- `glfwCreateWindow` returned a non-null window. -/
  windowOk : Bool
  /-- `gladLoadGL` returned non-zero. -/
  gladOk : Bool
  /-- `vertexShaderFile.open` did not throw. -/
  vertexOpenOk : Bool
  /-- `fragmentShaderFile.open` did not throw. -/
  fragmentOpenOk : Bool
  /-- `vertexShaderFile.close` did not throw. -/
  vertexCloseOk : Bool
  /-- `fragmentShaderFile.close` did not throw. -/
  fragmentCloseOk : Bool
  /-- Contents of `shaders/default.vert`. -/
  vertexShaderCode : String
  /-- Contents of `shaders/fluid.frag`. -/
  fragmentShaderCode : String
  /-- `GL_COMPILE_STATUS` of the vertex shader is non-zero. -/
  vertexCompileOk : Bool
  /-- `GL_COMPILE_STATUS` of the fragment shader is non-zero. -/
  fragmentCompileOk : Bool
  /-- `GL_LINK_STATUS` of the program is non-zero. -/
  linkOk : Bool
  /-- The driver's info log of the vertex shader. -/
  vertexInfoLog : String
  /-- The driver's info log of the fragment shader. -/
  fragmentInfoLog : String
  /-- The driver's info log of the program. -/
  programInfoLog : String

/-- An input event delivered while `glfwPollEvents` runs. -/
inductive InputEvent where
  /-- A key event: GLFW calls the registered key callback. -/
  | key (key scancode action mods : Int)
  /-- A resize: GLFW calls the registered framebuffer-size callback. -/
  | framebufferSize (width height : Int)
  /-- The user asked the window manager to close the window: GLFW itself sets
  the should-close flag. -/
  | closeRequest
  deriving DecidableEq

/-- The three-element `backgroundColor` array of `main`. -/
abbrev Color := Fin 3 → GLfloat

/-- What the environment does during one iteration of the render loop. -/
structure Frame where
  /-- Return value of `ImGui::Begin`. -/
  beginOpen : Bool
  /-- The array contents `ImGui::ColorPicker3` leaves behind, as a function of
  the contents it was handed. -/
  colorPicker3 : Color → Color
  /-- Return value of `glGetUniformLocation`. -/
  uniformLocation : Int
  /-- The events delivered by `glfwPollEvents`. -/
  events : List InputEvent

/-- The state of the GLFW window that the program observes. -/
structure Window where
  shouldClose : Int
  deriving DecidableEq

def glfwSetWindowShouldClose (window : Window) (value : Int) : Window :=
  { window with shouldClose := value }

def glfwWindowShouldClose (window : Window) : Int :=
  window.shouldClose

/-! ## Callbacks -/

/-- Source `keyCallback`: the window after the call and the calls made. -/
def keyCallback (window : Window) (key _scancode action _mods : Int) : Window × List Call :=
  if key = GLFW_KEY_ESCAPE ∧ action = GLFW_PRESS then
    (glfwSetWindowShouldClose window GLFW_TRUE, [Call.glfwSetWindowShouldClose GLFW_TRUE])
  else
    (window, [])

/-- Source `framebufferSizeCallback`: the window after the call and the calls made. -/
def framebufferSizeCallback (window : Window) (width height : Int) : Window × List Call :=
  (window, [Call.glViewport 0 0 width height])

/-- Delivery of one event by GLFW. -/
def dispatch (window : Window) : InputEvent → Window × List Call
  | InputEvent.key key scancode action mods => keyCallback window key scancode action mods
  | InputEvent.framebufferSize width height => framebufferSizeCallback window width height
  | InputEvent.closeRequest => (glfwSetWindowShouldClose window GLFW_TRUE, [])

/-- The effect of `glfwPollEvents()` delivering the given events in order. -/
def pollEvents : List InputEvent → Window → Window × List Call
  | [], window => (window, [])
  | e :: es, window =>
    ((pollEvents es (dispatch window e).1).1,
     (dispatch window e).2 ++ (pollEvents es (dispatch window e).1).2)

/-! ## Entry point: set-up -/

def vertices : List GLfloat :=
  [ 1,  1, 0,
    1, -1, 0,
   -1, -1, 0,
   -1,  1, 0]

def indices : List Nat :=
  [0, 1, 3,
   1, 2, 3]

def vertexShaderFilePath : String := "shaders/default.vert"
def fragmentShaderFilePath : String := "shaders/fluid.frag"

/-- The text `glGetShaderInfoLog` / `glGetProgramInfoLog` stores in the
`infoLog` buffer of `INFO_LOG_BUFFER_SIZE` characters (terminator included). -/
def infoLog (log : String) : String :=
  String.mk (log.data.take (INFO_LOG_BUFFER_SIZE - 1))

/-- Region "GLFW Initialization", up to the test of the result. -/
def glfwInitialization : List Call :=
  [Call.glfwInit]

/-- Region "Window Creation", up to the test of the window pointer. -/
def windowCreation : List Call :=
  [Call.glfwWindowHint WindowHint.GLFW_CONTEXT_VERSION_MAJOR (HintValue.int 3),
   Call.glfwWindowHint WindowHint.GLFW_CONTEXT_VERSION_MINOR (HintValue.int 3),
   Call.glfwWindowHint WindowHint.GLFW_OPENGL_PROFILE HintValue.GLFW_OPENGL_CORE_PROFILE,
   Call.glfwCreateWindow WINDOW_WIDTH WINDOW_HEIGHT "Tornado Simulation"]

/-- Region "Window Creation", after the test of the window pointer. -/
def windowConfiguration : List Call :=
  [Call.glfwMakeContextCurrent,
   Call.glfwSetKeyCallback,
   Call.glfwSetFramebufferSizeCallback]

/-- Region "GLAD Initialization", up to the test of the result. -/
def gladInitialization : List Call :=
  [Call.gladLoadGL]

/-- The viewport call and region "ImGui Initialization". -/
def imguiInitialization : List Call :=
  [Call.glViewport 0 0 WINDOW_WIDTH WINDOW_HEIGHT,
   Call.IMGUI_CHECKVERSION,
   Call.ImGui_CreateContext,
   Call.ImGui_ConfigFlags_NavEnableKeyboard,
   Call.ImGui_ImplGlfw_InitForOpenGL true,
   Call.ImGui_ImplOpenGL3_Init]

/-- Region "Create Mesh". -/
def createMesh : List Call :=
  [Call.glGenVertexArrays Handle.VAO,
   Call.glGenBuffers Handle.VBO,
   Call.glGenBuffers Handle.EBO,
   Call.glBindVertexArray (some Handle.VAO),
   Call.glBindBuffer GLenum.GL_ARRAY_BUFFER (some Handle.VBO),
   Call.glBufferData GLenum.GL_ARRAY_BUFFER (vertices.length * sizeofScalar)
     (BufferData.floats vertices) GLenum.GL_STATIC_DRAW,
   Call.glBindBuffer GLenum.GL_ELEMENT_ARRAY_BUFFER (some Handle.EBO),
   Call.glBufferData GLenum.GL_ELEMENT_ARRAY_BUFFER (indices.length * sizeofScalar)
     (BufferData.uints indices) GLenum.GL_STATIC_DRAW,
   Call.glVertexAttribPointer 0 3 GLenum.GL_FLOAT false (3 * sizeofScalar) 0,
   Call.glEnableVertexAttribArray 0,
   Call.glBindBuffer GLenum.GL_ARRAY_BUFFER none,
   Call.glBindVertexArray none]

/-- The `try` block of region "Create Shaders": the calls made and whether the
block completed without an `std::ifstream::failure`. -/
def loadShaderFiles (o : Outcomes) : List Call × Bool :=
  if o.vertexOpenOk = false then
    ([Call.ifstream_open Stream.vertexShaderFile vertexShaderFilePath], false)
  else if o.fragmentOpenOk = false then
    ([Call.ifstream_open Stream.vertexShaderFile vertexShaderFilePath,
      Call.ifstream_open Stream.fragmentShaderFile fragmentShaderFilePath], false)
  else if o.vertexCloseOk = false then
    ([Call.ifstream_open Stream.vertexShaderFile vertexShaderFilePath,
      Call.ifstream_open Stream.fragmentShaderFile fragmentShaderFilePath,
      Call.ifstream_rdbuf Stream.vertexShaderFile,
      Call.ifstream_rdbuf Stream.fragmentShaderFile,
      Call.ifstream_close Stream.vertexShaderFile], false)
  else if o.fragmentCloseOk = false then
    ([Call.ifstream_open Stream.vertexShaderFile vertexShaderFilePath,
      Call.ifstream_open Stream.fragmentShaderFile fragmentShaderFilePath,
      Call.ifstream_rdbuf Stream.vertexShaderFile,
      Call.ifstream_rdbuf Stream.fragmentShaderFile,
      Call.ifstream_close Stream.vertexShaderFile,
      Call.ifstream_close Stream.fragmentShaderFile], false)
  else
    ([Call.ifstream_open Stream.vertexShaderFile vertexShaderFilePath,
      Call.ifstream_open Stream.fragmentShaderFile fragmentShaderFilePath,
      Call.ifstream_rdbuf Stream.vertexShaderFile,
      Call.ifstream_rdbuf Stream.fragmentShaderFile,
      Call.ifstream_close Stream.vertexShaderFile,
      Call.ifstream_close Stream.fragmentShaderFile], true)

/-- The `catch` block of region "Create Shaders". -/
def loadShaderFilesCatch : List Call :=
  [Call.cerr ("Failed to load shaders from files\n" ++ vertexShaderFilePath ++ "\n"
     ++ fragmentShaderFilePath ++ "\n"),
   Call.glDeleteVertexArrays Handle.VAO,
   Call.glDeleteBuffers Handle.VBO,
   Call.glDeleteBuffers Handle.EBO,
   Call.glfwTerminate]

/-- Creation and compilation of the vertex shader, up to the test of `success`. -/
def compileVertexShader (o : Outcomes) : List Call :=
  [Call.glCreateShader GLenum.GL_VERTEX_SHADER Handle.vertexShader,
   Call.glShaderSource Handle.vertexShader o.vertexShaderCode,
   Call.glCompileShader Handle.vertexShader,
   Call.glGetShaderiv Handle.vertexShader GLenum.GL_COMPILE_STATUS]

/-- The failure branch of the vertex shader compilation. -/
def compileVertexShaderFailed (o : Outcomes) : List Call :=
  [Call.glGetShaderInfoLog Handle.vertexShader INFO_LOG_BUFFER_SIZE,
   Call.cerr ("Failed to compile vertex shader\n" ++ infoLog o.vertexInfoLog ++ "\n"),
   Call.glDeleteShader Handle.vertexShader,
   Call.glDeleteVertexArrays Handle.VAO,
   Call.glDeleteBuffers Handle.VBO,
   Call.glDeleteBuffers Handle.EBO,
   Call.glfwTerminate]

/-- Creation and compilation of the fragment shader, up to the test of `success`. -/
def compileFragmentShader (o : Outcomes) : List Call :=
  [Call.glCreateShader GLenum.GL_FRAGMENT_SHADER Handle.fragmentShader,
   Call.glShaderSource Handle.fragmentShader o.fragmentShaderCode,
   Call.glCompileShader Handle.fragmentShader,
   Call.glGetShaderiv Handle.fragmentShader GLenum.GL_COMPILE_STATUS]

/-- The failure branch of the fragment shader compilation. -/
def compileFragmentShaderFailed (o : Outcomes) : List Call :=
  [Call.glGetShaderInfoLog Handle.fragmentShader INFO_LOG_BUFFER_SIZE,
   Call.cerr ("Failed to compile fragment shader\n" ++ infoLog o.fragmentInfoLog ++ "\n"),
   Call.glDeleteShader Handle.vertexShader,
   Call.glDeleteShader Handle.fragmentShader,
   Call.glDeleteVertexArrays Handle.VAO,
   Call.glDeleteBuffers Handle.VBO,
   Call.glDeleteBuffers Handle.EBO,
   Call.glfwTerminate]

/-- Creation and linking of the shader program, up to the test of `success`. -/
def linkProgram : List Call :=
  [Call.glCreateProgram Handle.program,
   Call.glAttachShader Handle.program Handle.vertexShader,
   Call.glAttachShader Handle.program Handle.fragmentShader,
   Call.glLinkProgram Handle.program,
   Call.glDeleteShader Handle.vertexShader,
   Call.glDeleteShader Handle.fragmentShader,
   Call.glGetProgramiv Handle.program GLenum.GL_LINK_STATUS]

/-- The failure branch of the program link. -/
def linkProgramFailed (o : Outcomes) : List Call :=
  [Call.glGetProgramInfoLog Handle.program INFO_LOG_BUFFER_SIZE,
   Call.cerr ("Failed to initialize link shader program\n" ++ infoLog o.programInfoLog ++ "\n"),
   Call.glDeleteVertexArrays Handle.VAO,
   Call.glDeleteBuffers Handle.VBO,
   Call.glDeleteBuffers Handle.EBO,
   Call.glDeleteProgram Handle.program,
   Call.glfwTerminate]

/-- Everything from the viewport call to the configuration of the two file
streams: lines 79 to 133 of `main`. -/
def meshAndStreams : List Call :=
  imguiInitialization ++ createMesh
    ++ [Call.ifstream_exceptions Stream.vertexShaderFile,
        Call.ifstream_exceptions Stream.fragmentShaderFile]

/-- Lines 44 to 218 of `main`: everything before the render loop.  The result
is the calls made and whether control reaches the loop (`false`: `main` has
returned `EXIT_FAILURE`). -/
def setup (o : Outcomes) : List Call × Bool :=
  if o.glfwInitOk = false then
    (glfwInitialization ++ [Call.cerr "Failed to initialize GLFW.\n"], false)
  else if o.windowOk = false then
    (glfwInitialization ++ windowCreation
      ++ [Call.cerr "Failed to create window.\n", Call.glfwTerminate], false)
  else if o.gladOk = false then
    (glfwInitialization ++ windowCreation ++ windowConfiguration ++ gladInitialization
      ++ [Call.cerr "Failed to initialize GLAD.\n", Call.glfwTerminate], false)
  else if (loadShaderFiles o).2 = false then
    (glfwInitialization ++ windowCreation ++ windowConfiguration ++ gladInitialization
      ++ meshAndStreams ++ (loadShaderFiles o).1 ++ loadShaderFilesCatch, false)
  else if o.vertexCompileOk = false then
    (glfwInitialization ++ windowCreation ++ windowConfiguration ++ gladInitialization
      ++ meshAndStreams ++ (loadShaderFiles o).1
      ++ compileVertexShader o ++ compileVertexShaderFailed o, false)
  else if o.fragmentCompileOk = false then
    (glfwInitialization ++ windowCreation ++ windowConfiguration ++ gladInitialization
      ++ meshAndStreams ++ (loadShaderFiles o).1
      ++ compileVertexShader o ++ compileFragmentShader o
      ++ compileFragmentShaderFailed o, false)
  else if o.linkOk = false then
    (glfwInitialization ++ windowCreation ++ windowConfiguration ++ gladInitialization
      ++ meshAndStreams ++ (loadShaderFiles o).1
      ++ compileVertexShader o ++ compileFragmentShader o
      ++ linkProgram ++ linkProgramFailed o, false)
  else
    (glfwInitialization ++ windowCreation ++ windowConfiguration ++ gladInitialization
      ++ meshAndStreams ++ (loadShaderFiles o).1
      ++ compileVertexShader o ++ compileFragmentShader o
      ++ linkProgram, true)

/-! ## Entry point: render loop and cleanup -/

/-- The initial contents of `backgroundColor`. -/
def backgroundColorInit : Color := ![0, 0, 0]

/-- The program state that is live across iterations of the render loop. -/
structure LoopState where
  window : Window
  backgroundColor : Color

/-- Region "ImGui Editor": the array contents after the panel and the calls made. -/
def imguiEditor (f : Frame) (backgroundColor : Color) : Color × List Call :=
  if f.beginOpen = false then
    (backgroundColor, [Call.ImGui_Begin "Simulation Parameters", Call.ImGui_End])
  else
    (f.colorPicker3 backgroundColor,
     [Call.ImGui_Begin "Simulation Parameters",
      Call.ImGui_Text "Test test",
      Call.ImGui_ColorPicker3 "backgroundColor",
      Call.ImGui_End])

/-- The body of the `while` loop: the state after the iteration and the calls
made by it. -/
def iteration (f : Frame) (s : LoopState) : LoopState × List Call :=
  ({ window := (pollEvents f.events s.window).1,
     backgroundColor := (imguiEditor f s.backgroundColor).1 },
   [Call.ImGui_ImplOpenGL3_NewFrame,
    Call.ImGui_ImplGlfw_NewFrame,
    Call.ImGui_NewFrame]
   ++ (imguiEditor f s.backgroundColor).2
   ++ [Call.glfwPollEvents]
   ++ (pollEvents f.events s.window).2
   ++ [Call.glClearColor 1 0 0 1,
       Call.glClear GLenum.GL_COLOR_BUFFER_BIT,
       Call.glUseProgram Handle.program,
       Call.glGetUniformLocation Handle.program "backgroundColor",
       Call.glUniform3f f.uniformLocation
         ((imguiEditor f s.backgroundColor).1 0)
         ((imguiEditor f s.backgroundColor).1 1)
         ((imguiEditor f s.backgroundColor).1 2),
       Call.glBindVertexArray (some Handle.VAO),
       Call.glBindBuffer GLenum.GL_ELEMENT_ARRAY_BUFFER (some Handle.EBO),
       Call.glDrawElements GLenum.GL_TRIANGLES 6 GLenum.GL_UNSIGNED_INT 0,
       Call.ImGui_Render,
       Call.ImGui_GetDrawData,
       Call.ImGui_ImplOpenGL3_RenderDrawData,
       Call.glfwSwapBuffers])

/-- The result of running the `while` loop against a finite script of frames. -/
structure LoopResult where
  /-- The calls made, the evaluations of the loop condition included. -/
  trace : List Call
  /-- The loop condition became false: the loop was left.  `false` when the
  script of frames ran out with the window still open. -/
  ended : Bool
  /-- The state when the script ended. -/
  state : LoopState

/-- The `while (!glfwWindowShouldClose(window))` loop, one frame of the script
per iteration. -/
def renderLoop : List Frame → LoopState → LoopResult
  | [], s =>
    { trace := [Call.glfwWindowShouldClose],
      ended := decide (glfwWindowShouldClose s.window ≠ 0),
      state := s }
  | f :: fs, s =>
    if glfwWindowShouldClose s.window ≠ 0 then
      { trace := [Call.glfwWindowShouldClose], ended := true, state := s }
    else
      { trace := Call.glfwWindowShouldClose :: (iteration f s).2
          ++ (renderLoop fs (iteration f s).1).trace,
        ended := (renderLoop fs (iteration f s).1).ended,
        state := (renderLoop fs (iteration f s).1).state }

/-- Region "Cleanup". -/
def cleanup : List Call :=
  [Call.ImGui_ImplOpenGL3_Shutdown,
   Call.ImGui_ImplGlfw_Shutdown,
   Call.ImGui_DestroyContext,
   Call.glDeleteVertexArrays Handle.VAO,
   Call.glDeleteBuffers Handle.VBO,
   Call.glDeleteBuffers Handle.EBO,
   Call.glDeleteProgram Handle.program,
   Call.glfwTerminate]

/-- One run of the program. -/
structure Run where
  /-- The calls made, in program order. -/
  trace : List Call
  /-- The value returned by `main`; `none` when the script of frames ran out
  with the render loop still running. -/
  status : Option Int

/-- The state in which the render loop is entered: a freshly created window
has its should-close flag clear, and `backgroundColor` holds its initializer. -/
def initialLoopState : LoopState :=
  { window := { shouldClose := 0 }, backgroundColor := backgroundColorInit }

/-- Source `main`. -/
def main (o : Outcomes) (env : List Frame) : Run :=
  if (setup o).2 = false then
    { trace := (setup o).1, status := some EXIT_FAILURE }
  else if (renderLoop env initialLoopState).ended = false then
    { trace := (setup o).1 ++ (renderLoop env initialLoopState).trace,
      status := none }
  else
    { trace := (setup o).1 ++ (renderLoop env initialLoopState).trace ++ cleanup,
      status := some EXIT_SUCCESS }

/-! ## The quad -/

/-- The position attribute of vertex `i`, as laid out by
`glVertexAttribPointer(0, 3, GL_FLOAT, GL_FALSE, 3 * sizeof(float), (void*)0)`:
three consecutive floats starting at float `3 * i`. -/
def vertexPosition (i : Nat) : GLfloat × GLfloat × GLfloat :=
  (vertices.getD (3 * i) 0, vertices.getD (3 * i + 1) 0, vertices.getD (3 * i + 2) 0)

/-- The number of complete three-component vertices held by `vertices`. -/
def vertexCount : Nat := vertices.length / 3

/-! ## Reading a trace -/

/-- The seven steps of `main` that can fail. -/
inductive Step where
  | windowingInit | windowCreation | gpuLoader | shaderFileRead
  | vertexCompile | fragmentCompile | programLink
  deriving DecidableEq, Repr

/-- Whether the environment lets a step succeed.  The shader file read succeeds
when none of the throwing stream operations of the `try` block throws. -/
def Step.ok (o : Outcomes) : Step → Bool
  | Step.windowingInit => o.glfwInitOk
  | Step.windowCreation => o.windowOk
  | Step.gpuLoader => o.gladOk
  | Step.shaderFileRead =>
    o.vertexOpenOk && o.fragmentOpenOk && o.vertexCloseOk && o.fragmentCloseOk
  | Step.vertexCompile => o.vertexCompileOk
  | Step.fragmentCompile => o.fragmentCompileOk
  | Step.programLink => o.linkOk

/-- The step a call starts, if it starts one. -/
def attempts : Call → Option Step
  | Call.glfwInit => some Step.windowingInit
  | Call.glfwCreateWindow _ _ _ => some Step.windowCreation
  | Call.gladLoadGL => some Step.gpuLoader
  | Call.ifstream_open Stream.vertexShaderFile _ => some Step.shaderFileRead
  | Call.glCompileShader Handle.vertexShader => some Step.vertexCompile
  | Call.glCompileShader Handle.fragmentShader => some Step.fragmentCompile
  | Call.glLinkProgram _ => some Step.programLink
  | _ => none

/-- A run reaches a step when its trace holds the call that starts the step. -/
def reached (t : List Call) (s : Step) : Bool :=
  t.any (fun c => decide (attempts c = some s))

/-- The evaluation of the loop condition. -/
def isLoopCondition : Call → Bool
  | Call.glfwWindowShouldClose => true
  | _ => false

/-- The calls that only the body of the render loop makes: clear, uniform
upload, draw, UI frame and buffer swap. -/
def isFrameCall : Call → Bool
  | Call.ImGui_ImplOpenGL3_NewFrame => true
  | Call.ImGui_ImplGlfw_NewFrame => true
  | Call.ImGui_NewFrame => true
  | Call.ImGui_Begin _ => true
  | Call.ImGui_End => true
  | Call.glfwPollEvents => true
  | Call.glClearColor _ _ _ _ => true
  | Call.glClear _ => true
  | Call.glUseProgram _ => true
  | Call.glUniform3f _ _ _ _ => true
  | Call.glDrawElements _ _ _ _ => true
  | Call.ImGui_Render => true
  | Call.ImGui_ImplOpenGL3_RenderDrawData => true
  | Call.glfwSwapBuffers => true
  | _ => false

/-- Every call that can occur between entering and leaving the render loop. -/
def isLoopCall : Call → Bool
  | Call.glfwWindowShouldClose => true
  | Call.ImGui_ImplOpenGL3_NewFrame => true
  | Call.ImGui_ImplGlfw_NewFrame => true
  | Call.ImGui_NewFrame => true
  | Call.ImGui_Begin _ => true
  | Call.ImGui_End => true
  | Call.ImGui_Text _ => true
  | Call.ImGui_ColorPicker3 _ => true
  | Call.glfwPollEvents => true
  | Call.glfwSetWindowShouldClose _ => true
  | Call.glViewport _ _ _ _ => true
  | Call.glClearColor _ _ _ _ => true
  | Call.glClear _ => true
  | Call.glUseProgram _ => true
  | Call.glGetUniformLocation _ _ => true
  | Call.glUniform3f _ _ _ _ => true
  | Call.glBindVertexArray _ => true
  | Call.glBindBuffer _ _ => true
  | Call.glDrawElements _ _ _ _ => true
  | Call.ImGui_Render => true
  | Call.ImGui_GetDrawData => true
  | Call.ImGui_ImplOpenGL3_RenderDrawData => true
  | Call.glfwSwapBuffers => true
  | _ => false

/-- A write to standard error. -/
def isCerr : Call → Bool
  | Call.cerr _ => true
  | _ => false

/-- An operation on one of the two file streams that touches the file. -/
def isFileCall : Call → Bool
  | Call.ifstream_open _ _ => true
  | Call.ifstream_rdbuf _ => true
  | Call.ifstream_close _ => true
  | _ => false

/-- The compilation of a shader. -/
def isCompileShader : Call → Bool
  | Call.glCompileShader _ => true
  | _ => false

/-- The GPU object a call creates. -/
def gpuCreated : Call → Option Handle
  | Call.glGenVertexArrays h => some h
  | Call.glGenBuffers h => some h
  | Call.glCreateShader _ h => some h
  | Call.glCreateProgram h => some h
  | _ => none

/-- The GPU object a call deletes. -/
def gpuDeleted : Call → Option Handle
  | Call.glDeleteVertexArrays h => some h
  | Call.glDeleteBuffers h => some h
  | Call.glDeleteShader h => some h
  | Call.glDeleteProgram h => some h
  | _ => none

/-- The resources `main` acquires and releases: the windowing library and its
window, the UI context and its two backends, and the GPU objects. -/
inductive Resource where
  | windowing | window | uiContext | uiPlatformBackend | uiRendererBackend
  | gpu (h : Handle)
  deriving DecidableEq, Repr

/-- The resources a call acquires when it succeeds. -/
def acquires : Call → List Resource
  | Call.glfwInit => [Resource.windowing]
  | Call.glfwCreateWindow _ _ _ => [Resource.window]
  | Call.ImGui_CreateContext => [Resource.uiContext]
  | Call.ImGui_ImplGlfw_InitForOpenGL _ => [Resource.uiPlatformBackend]
  | Call.ImGui_ImplOpenGL3_Init => [Resource.uiRendererBackend]
  | Call.glGenVertexArrays h => [Resource.gpu h]
  | Call.glGenBuffers h => [Resource.gpu h]
  | Call.glCreateShader _ h => [Resource.gpu h]
  | Call.glCreateProgram h => [Resource.gpu h]
  | _ => []

/-- The resources a call releases.  `glfwTerminate` destroys the window and
then shuts the library down. -/
def releases : Call → List Resource
  | Call.glfwTerminate => [Resource.window, Resource.windowing]
  | Call.ImGui_DestroyContext => [Resource.uiContext]
  | Call.ImGui_ImplGlfw_Shutdown => [Resource.uiPlatformBackend]
  | Call.ImGui_ImplOpenGL3_Shutdown => [Resource.uiRendererBackend]
  | Call.glDeleteVertexArrays h => [Resource.gpu h]
  | Call.glDeleteBuffers h => [Resource.gpu h]
  | Call.glDeleteShader h => [Resource.gpu h]
  | Call.glDeleteProgram h => [Resource.gpu h]
  | _ => []

/-- The resources released along a trace, in order of release. -/
def releaseOrder (t : List Call) : List Resource :=
  (t.map releases).flatten

/-- The resources acquired along a trace, in order of acquisition. -/
def acquireOrder (t : List Call) : List Resource :=
  (t.map acquires).flatten

/-- The resources held at the end of a trace: those acquired along it and not
released along it, in order of acquisition. -/
def held (t : List Call) : List Resource :=
  (acquireOrder t).filter (fun r => decide (r ∉ releaseOrder t))

/-- The calls made after the last evaluation of the loop condition. -/
def afterLoop (t : List Call) : List Call :=
  (t.reverse.takeWhile (fun c => !isLoopCondition c)).reverse

/-- The calls made up to and including the last evaluation of the loop
condition. -/
def throughLoop (t : List Call) : List Call :=
  (t.reverse.dropWhile (fun c => !isLoopCondition c)).reverse

/-- The seven steps of one iteration of the render loop. -/
inductive LoopStep where
  | pollInput | buildPanel | clearScreen | setUniform | drawIndices | renderUI | swapBuffers
  deriving DecidableEq, Repr

/-- The step of the iteration a call performs: the poll, the opening of the
panel, the clear, the uniform upload, the indexed draw, the UI render and the
buffer swap. -/
def loopStep : Call → Option LoopStep
  | Call.glfwPollEvents => some LoopStep.pollInput
  | Call.ImGui_Begin _ => some LoopStep.buildPanel
  | Call.glClear _ => some LoopStep.clearScreen
  | Call.glUniform3f _ _ _ _ => some LoopStep.setUniform
  | Call.glDrawElements _ _ _ _ => some LoopStep.drawIndices
  | Call.ImGui_Render => some LoopStep.renderUI
  | Call.glfwSwapBuffers => some LoopStep.swapBuffers
  | _ => none

/-- The uniform uploads of a trace: location and the three values. -/
def uploads : List Call → List (Int × GLfloat × GLfloat × GLfloat)
  | [] => []
  | Call.glUniform3f location v0 v1 v2 :: cs => (location, v0, v1, v2) :: uploads cs
  | _ :: cs => uploads cs

/-- Every call of the trace that satisfies `q` comes after some call that
satisfies `p`. -/
def Preceded (p q : Call → Bool) (t : List Call) : Prop :=
  ∀ pre c post, t = pre ++ c :: post → q c = true → ∃ x ∈ pre, p x = true

/-- No call of the trace that satisfies `p` comes before a call that
satisfies `q`. -/
def NoneBefore (p q : Call → Bool) (t : List Call) : Prop :=
  ∀ pre c post, t = pre ++ c :: post → q c = true → ∀ x ∈ pre, p x = false

/-- Executable form of `Preceded`; `seen` tells whether a `p` call came earlier. -/
def precededFrom (p q : Call → Bool) : Bool → List Call → Bool
  | _, [] => true
  | seen, c :: cs => (!(q c) || seen) && precededFrom p q (seen || p c) cs

/-- Executable form of `NoneBefore`; `seen` tells whether a `p` call came earlier. -/
def noneBeforeFrom (p q : Call → Bool) : Bool → List Call → Bool
  | _, [] => true
  | seen, c :: cs => (!(q c) || !seen) && noneBeforeFrom p q (seen || p c) cs

/-- The six stream operations of the `try` block, in program order. -/
def shaderFileCalls : List Call :=
  [Call.ifstream_open Stream.vertexShaderFile vertexShaderFilePath,
   Call.ifstream_open Stream.fragmentShaderFile fragmentShaderFilePath,
   Call.ifstream_rdbuf Stream.vertexShaderFile,
   Call.ifstream_rdbuf Stream.fragmentShaderFile,
   Call.ifstream_close Stream.vertexShaderFile,
   Call.ifstream_close Stream.fragmentShaderFile]

/-- The calls made on every run that gets past the GPU loader, up to the
configuration of the two file streams. -/
def throughStreams : List Call :=
  glfwInitialization ++ windowCreation ++ windowConfiguration ++ gladInitialization
    ++ meshAndStreams

/-- An event whose delivery sets the should-close flag of the window: an
Escape key press (through `keyCallback`) or a close request. -/
def InputEvent.closes : InputEvent → Bool
  | InputEvent.key k _ a _ => decide (k = GLFW_KEY_ESCAPE ∧ a = GLFW_PRESS)
  | InputEvent.framebufferSize _ _ => false
  | InputEvent.closeRequest => true

/-- A frame during which the window is asked to close. -/
def Frame.closes (f : Frame) : Bool :=
  f.events.any InputEvent.closes

/-- A call that releases one of the resources of `main`. -/
def releasesSomething (c : Call) : Bool :=
  !(releases c).isEmpty

/-- The deletion of a shader object. -/
def isDeleteShader : Call → Bool
  | Call.glDeleteShader _ => true
  | _ => false

/-- The creation of the given GPU object. -/
def isCreationOf (obj : Handle) (c : Call) : Bool :=
  decide (gpuCreated c = some obj)

/-- The deletion of the given GPU object. -/
def isDeletionOf (obj : Handle) (c : Call) : Bool :=
  decide (gpuDeleted c = some obj)

/-- An environment in which every set-up step succeeds. -/
def allOk : Outcomes :=
  { glfwInitOk := true, windowOk := true, gladOk := true,
    vertexOpenOk := true, fragmentOpenOk := true,
    vertexCloseOk := true, fragmentCloseOk := true,
    vertexShaderCode := "void main() {}", fragmentShaderCode := "void main() {}",
    vertexCompileOk := true, fragmentCompileOk := true, linkOk := true,
    vertexInfoLog := "", fragmentInfoLog := "", programInfoLog := "" }

/-- An environment in which everything succeeds except the program link. -/
def linkFails : Outcomes :=
  { allOk with linkOk := false, programInfoLog := "error: link" }

/-- A frame in which the panel is open, the picker leaves the colour alone
and the user presses Escape. -/
def escapeFrame : Frame :=
  { beginOpen := true, colorPicker3 := fun c => c, uniformLocation := 0,
    events := [InputEvent.key GLFW_KEY_ESCAPE 9 GLFW_PRESS 0] }

/-- A frame in which the panel is open, the picker selects white and nothing
else happens. -/
def whiteFrame : Frame :=
  { beginOpen := true, colorPicker3 := fun _ => ![1, 1, 1], uniformLocation := 0,
    events := [] }

/-! ## Theorems -/

/-! ### Traces -/

theorem precededFrom_sound (p q : Call → Bool) :
    ∀ (t : List Call) (seen : Bool), precededFrom p q seen t = true →
      ∀ pre c post, t = pre ++ c :: post → q c = true →
        seen = true ∨ ∃ x ∈ pre, p x = true := by
  intro t
  induction t with
  | nil => intro seen _ pre c post h; simp at h
  | cons a t ih =>
    intro seen hchk pre c post h hq
    simp only [precededFrom, Bool.and_eq_true, Bool.or_eq_true, Bool.not_eq_true'] at hchk
    cases pre with
    | nil =>
      simp only [List.nil_append, List.cons.injEq] at h
      rw [← h.1] at hq
      rcases hchk.1 with h1 | h1
      · rw [h1] at hq; exact absurd hq (by simp)
      · exact Or.inl h1
    | cons b pre =>
      simp only [List.cons_append, List.cons.injEq] at h
      rcases ih _ hchk.2 pre c post h.2 hq with h1 | ⟨x, hx, hpx⟩
      · simp only [Bool.or_eq_true] at h1
        rcases h1 with h1 | h1
        · exact Or.inl h1
        · exact Or.inr ⟨b, List.mem_cons_self _ _, by rw [← h.1]; exact h1⟩
      · exact Or.inr ⟨x, List.mem_cons_of_mem _ hx, hpx⟩

theorem preceded_of_check (p q : Call → Bool) (t : List Call)
    (h : precededFrom p q false t = true) : Preceded p q t := by
  intro pre c post ht hq
  rcases precededFrom_sound p q t false h pre c post ht hq with h1 | h1
  · exact absurd h1 (by simp)
  · exact h1

theorem noneBeforeFrom_sound (p q : Call → Bool) :
    ∀ (t : List Call) (seen : Bool), noneBeforeFrom p q seen t = true →
      ∀ pre c post, t = pre ++ c :: post → q c = true →
        seen = false ∧ ∀ x ∈ pre, p x = false := by
  intro t
  induction t with
  | nil => intro seen _ pre c post h; simp at h
  | cons a t ih =>
    intro seen hchk pre c post h hq
    simp only [noneBeforeFrom, Bool.and_eq_true, Bool.or_eq_true, Bool.not_eq_true'] at hchk
    cases pre with
    | nil =>
      simp only [List.nil_append, List.cons.injEq] at h
      rw [← h.1] at hq
      rcases hchk.1 with h1 | h1
      · rw [h1] at hq; exact absurd hq (by simp)
      · exact ⟨h1, by simp⟩
    | cons b pre =>
      simp only [List.cons_append, List.cons.injEq] at h
      have h2 := ih _ hchk.2 pre c post h.2 hq
      simp only [Bool.or_eq_false_iff] at h2
      refine ⟨h2.1.1, ?_⟩
      intro x hx
      rcases List.mem_cons.1 hx with hx | hx
      · rw [hx, ← h.1]; exact h2.1.2
      · exact h2.2 x hx

theorem noneBefore_of_check (p q : Call → Bool) (t : List Call)
    (h : noneBeforeFrom p q false t = true) : NoneBefore p q t := by
  intro pre c post ht hq
  exact (noneBeforeFrom_sound p q t false h pre c post ht hq).2

theorem noneBeforeFrom_complete (p q : Call → Bool) :
    ∀ (t : List Call) (seen : Bool),
      (∀ pre c post, t = pre ++ c :: post → q c = true →
        seen = false ∧ ∀ x ∈ pre, p x = false) →
      noneBeforeFrom p q seen t = true := by
  intro t
  induction t with
  | nil => intro seen _; rfl
  | cons a t ih =>
    intro seen h
    simp only [noneBeforeFrom, Bool.and_eq_true, Bool.or_eq_true, Bool.not_eq_true']
    constructor
    · cases hq : q a
      · exact Or.inl rfl
      · exact Or.inr (h [] a t rfl hq).1
    · apply ih
      intro pre c post ht hq
      have h2 := h (a :: pre) c post (by rw [ht]; rfl) hq
      refine ⟨?_, fun x hx => h2.2 x (List.mem_cons_of_mem _ hx)⟩
      rw [h2.1, h2.2 a (List.mem_cons_self _ _)]
      rfl

theorem not_noneBefore_of_check (p q : Call → Bool) (t : List Call)
    (h : noneBeforeFrom p q false t = false) : ¬ NoneBefore p q t := by
  intro hn
  have := noneBeforeFrom_complete p q t false (fun pre c post ht hq => ⟨rfl, hn pre c post ht hq⟩)
  rw [this] at h
  exact absurd h (by simp)

/-- A split of `a ++ b` at an element that is not in `a` splits `b`. -/
theorem split_append_right {a b pre post : List Call} {c : Call} (q : Call → Bool)
    (h : a ++ b = pre ++ c :: post) (hq : q c = true) (ha : ∀ x ∈ a, q x = false) :
    ∃ mid, pre = a ++ mid := by
  rcases List.append_eq_append_iff.1 h with ⟨m, hm, _⟩ | ⟨m, hm, hb2⟩
  · exact ⟨m, hm⟩
  · cases m with
    | nil => exact ⟨[], by simpa using hm.symm⟩
    | cons d m =>
      simp only [List.cons_append, List.cons.injEq] at hb2
      have hc : c ∈ a := by rw [hm, hb2.1]; simp
      rw [ha c hc] at hq
      exact absurd hq (by simp)

theorem pollEvents_calls (es : List InputEvent) :
    ∀ (w : Window) (c : Call), c ∈ (pollEvents es w).2 →
      c = Call.glfwSetWindowShouldClose GLFW_TRUE ∨ ∃ wd ht, c = Call.glViewport 0 0 wd ht := by
  induction es with
  | nil => intro w c h; simp [pollEvents] at h
  | cons e es ih =>
    intro w c h
    simp only [pollEvents, List.mem_append] at h
    rcases h with h | h
    · cases e with
      | key k sc a m =>
        simp only [dispatch, keyCallback] at h
        split at h
        · simp at h; exact Or.inl h
        · simp at h
      | framebufferSize wd ht =>
        simp only [dispatch, framebufferSizeCallback, List.mem_singleton] at h
        exact Or.inr ⟨wd, ht, h⟩
      | closeRequest => simp [dispatch] at h
    · exact ih _ c h

theorem iteration_calls (f : Frame) (s : LoopState) :
    ∀ c ∈ (iteration f s).2, isLoopCall c = true ∧ isLoopCondition c = false := by
  intro c h
  simp only [iteration, List.mem_append] at h
  rcases h with (((h | h) | h) | h) | h
  · simp at h
    rcases h with h | h | h <;> subst h <;> exact ⟨rfl, rfl⟩
  · simp only [imguiEditor] at h
    split at h
    · simp at h
      rcases h with h | h <;> subst h <;> exact ⟨rfl, rfl⟩
    · simp at h
      rcases h with h | h | h | h <;> subst h <;> exact ⟨rfl, rfl⟩
  · simp at h
    subst h; exact ⟨rfl, rfl⟩
  · rcases pollEvents_calls _ _ _ h with h | ⟨wd, ht, h⟩ <;> subst h <;> exact ⟨rfl, rfl⟩
  · simp at h
    rcases h with h | h | h | h | h | h | h | h | h | h | h | h <;> subst h <;> exact ⟨rfl, rfl⟩

theorem renderLoop_calls (fs : List Frame) :
    ∀ (s : LoopState), ∀ c ∈ (renderLoop fs s).trace, isLoopCall c = true := by
  induction fs with
  | nil => intro s c h; simp [renderLoop] at h; subst h; rfl
  | cons f fs ih =>
    intro s c h
    simp only [renderLoop] at h
    split at h
    · simp at h; subst h; rfl
    · simp only [List.cons_append, List.mem_cons, List.mem_append] at h
      rcases h with h | h | h
      · subst h; rfl
      · exact (iteration_calls f s c h).1
      · exact ih _ c h

/-- The trace of the loop ends with an evaluation of the loop condition. -/
theorem renderLoop_trace_last (fs : List Frame) :
    ∀ (s : LoopState), ∃ init, (renderLoop fs s).trace = init ++ [Call.glfwWindowShouldClose] := by
  induction fs with
  | nil => intro s; exact ⟨[], by simp [renderLoop]⟩
  | cons f fs ih =>
    intro s
    simp only [renderLoop]
    split
    · exact ⟨[], by simp⟩
    · obtain ⟨init, hinit⟩ := ih (iteration f s).1
      exact ⟨Call.glfwWindowShouldClose :: (iteration f s).2 ++ init, by simp [hinit]⟩

theorem loadShaderFiles_cases (o : Outcomes) :
    (o.vertexOpenOk = false ∧ loadShaderFiles o = (shaderFileCalls.take 1, false))
    ∨ (o.vertexOpenOk = true ∧ o.fragmentOpenOk = false
        ∧ loadShaderFiles o = (shaderFileCalls.take 2, false))
    ∨ (o.vertexOpenOk = true ∧ o.fragmentOpenOk = true ∧ o.vertexCloseOk = false
        ∧ loadShaderFiles o = (shaderFileCalls.take 5, false))
    ∨ (o.vertexOpenOk = true ∧ o.fragmentOpenOk = true ∧ o.vertexCloseOk = true
        ∧ o.fragmentCloseOk = false ∧ loadShaderFiles o = (shaderFileCalls, false))
    ∨ (o.vertexOpenOk = true ∧ o.fragmentOpenOk = true ∧ o.vertexCloseOk = true
        ∧ o.fragmentCloseOk = true ∧ loadShaderFiles o = (shaderFileCalls, true)) := by
  unfold loadShaderFiles
  cases h1 : o.vertexOpenOk
  · exact Or.inl ⟨rfl, rfl⟩
  cases h2 : o.fragmentOpenOk
  · exact Or.inr (Or.inl ⟨rfl, rfl, rfl⟩)
  cases h3 : o.vertexCloseOk
  · exact Or.inr (Or.inr (Or.inl ⟨rfl, rfl, rfl, rfl⟩))
  cases h4 : o.fragmentCloseOk
  · exact Or.inr (Or.inr (Or.inr (Or.inl ⟨rfl, rfl, rfl, rfl, rfl⟩)))
  · exact Or.inr (Or.inr (Or.inr (Or.inr ⟨rfl, rfl, rfl, rfl, rfl⟩)))

/-- The eleven ways the set-up can go, each with the outcomes that select it
and the calls it makes. -/
theorem setup_cases (o : Outcomes) :
    ((o.glfwInitOk = false)
      ∧ setup o = (glfwInitialization ++ [Call.cerr "Failed to initialize GLFW.\n"], false))
    ∨ ((o.glfwInitOk = true ∧ o.windowOk = false)
      ∧ setup o = (glfwInitialization ++ windowCreation
          ++ [Call.cerr "Failed to create window.\n", Call.glfwTerminate], false))
    ∨ ((o.glfwInitOk = true ∧ o.windowOk = true ∧ o.gladOk = false)
      ∧ setup o = (glfwInitialization ++ windowCreation ++ windowConfiguration
          ++ gladInitialization
          ++ [Call.cerr "Failed to initialize GLAD.\n", Call.glfwTerminate], false))
    ∨ ((o.glfwInitOk = true ∧ o.windowOk = true ∧ o.gladOk = true ∧ o.vertexOpenOk = false)
      ∧ setup o = (throughStreams ++ shaderFileCalls.take 1 ++ loadShaderFilesCatch, false))
    ∨ ((o.glfwInitOk = true ∧ o.windowOk = true ∧ o.gladOk = true ∧ o.vertexOpenOk = true
          ∧ o.fragmentOpenOk = false)
      ∧ setup o = (throughStreams ++ shaderFileCalls.take 2 ++ loadShaderFilesCatch, false))
    ∨ ((o.glfwInitOk = true ∧ o.windowOk = true ∧ o.gladOk = true ∧ o.vertexOpenOk = true
          ∧ o.fragmentOpenOk = true ∧ o.vertexCloseOk = false)
      ∧ setup o = (throughStreams ++ shaderFileCalls.take 5 ++ loadShaderFilesCatch, false))
    ∨ ((o.glfwInitOk = true ∧ o.windowOk = true ∧ o.gladOk = true ∧ o.vertexOpenOk = true
          ∧ o.fragmentOpenOk = true ∧ o.vertexCloseOk = true ∧ o.fragmentCloseOk = false)
      ∧ setup o = (throughStreams ++ shaderFileCalls ++ loadShaderFilesCatch, false))
    ∨ ((o.glfwInitOk = true ∧ o.windowOk = true ∧ o.gladOk = true ∧ o.vertexOpenOk = true
          ∧ o.fragmentOpenOk = true ∧ o.vertexCloseOk = true ∧ o.fragmentCloseOk = true
          ∧ o.vertexCompileOk = false)
      ∧ setup o = (throughStreams ++ shaderFileCalls ++ compileVertexShader o
          ++ compileVertexShaderFailed o, false))
    ∨ ((o.glfwInitOk = true ∧ o.windowOk = true ∧ o.gladOk = true ∧ o.vertexOpenOk = true
          ∧ o.fragmentOpenOk = true ∧ o.vertexCloseOk = true ∧ o.fragmentCloseOk = true
          ∧ o.vertexCompileOk = true ∧ o.fragmentCompileOk = false)
      ∧ setup o = (throughStreams ++ shaderFileCalls ++ compileVertexShader o
          ++ compileFragmentShader o ++ compileFragmentShaderFailed o, false))
    ∨ ((o.glfwInitOk = true ∧ o.windowOk = true ∧ o.gladOk = true ∧ o.vertexOpenOk = true
          ∧ o.fragmentOpenOk = true ∧ o.vertexCloseOk = true ∧ o.fragmentCloseOk = true
          ∧ o.vertexCompileOk = true ∧ o.fragmentCompileOk = true ∧ o.linkOk = false)
      ∧ setup o = (throughStreams ++ shaderFileCalls ++ compileVertexShader o
          ++ compileFragmentShader o ++ linkProgram ++ linkProgramFailed o, false))
    ∨ ((o.glfwInitOk = true ∧ o.windowOk = true ∧ o.gladOk = true ∧ o.vertexOpenOk = true
          ∧ o.fragmentOpenOk = true ∧ o.vertexCloseOk = true ∧ o.fragmentCloseOk = true
          ∧ o.vertexCompileOk = true ∧ o.fragmentCompileOk = true ∧ o.linkOk = true)
      ∧ setup o = (throughStreams ++ shaderFileCalls ++ compileVertexShader o
          ++ compileFragmentShader o ++ linkProgram, true)) := by
  unfold setup
  cases h1 : o.glfwInitOk
  · exact Or.inl ⟨rfl, rfl⟩
  refine Or.inr ?_
  cases h2 : o.windowOk
  · exact Or.inl ⟨⟨rfl, rfl⟩, rfl⟩
  refine Or.inr ?_
  cases h3 : o.gladOk
  · exact Or.inl ⟨⟨rfl, rfl, rfl⟩, rfl⟩
  refine Or.inr ?_
  rcases loadShaderFiles_cases o with ⟨a, hl⟩ | ⟨a, b, hl⟩ | ⟨a, b, c, hl⟩ | ⟨a, b, c, d, hl⟩
    | ⟨a, b, c, d, hl⟩
  · exact Or.inl ⟨⟨rfl, rfl, rfl, a⟩, by simp [hl, throughStreams]⟩
  · exact Or.inr (Or.inl ⟨⟨rfl, rfl, rfl, a, b⟩, by simp [hl, throughStreams]⟩)
  · exact Or.inr (Or.inr (Or.inl ⟨⟨rfl, rfl, rfl, a, b, c⟩, by simp [hl, throughStreams]⟩))
  · exact Or.inr (Or.inr (Or.inr (Or.inl
      ⟨⟨rfl, rfl, rfl, a, b, c, d⟩, by simp [hl, throughStreams]⟩)))
  refine Or.inr (Or.inr (Or.inr (Or.inr ?_)))
  simp only [hl, Bool.true_eq_false, if_false]
  cases h4 : o.vertexCompileOk
  · exact Or.inl (by simp [throughStreams, a, b, c, d])
  refine Or.inr ?_
  cases h5 : o.fragmentCompileOk
  · exact Or.inl (by simp [throughStreams, a, b, c, d])
  refine Or.inr ?_
  cases h6 : o.linkOk
  · exact Or.inl (by simp [throughStreams, a, b, c, d])
  · exact Or.inr (by simp [throughStreams, a, b, c, d])

/-! ### The whole run -/

theorem main_of_setup_failed {o : Outcomes} (env : List Frame) (h : (setup o).2 = false) :
    main o env = { trace := (setup o).1, status := some EXIT_FAILURE } := by
  simp [main, h]

theorem main_of_setup_ok {o : Outcomes} (env : List Frame) (h : (setup o).2 = true) :
    main o env =
      { trace := (setup o).1 ++ (renderLoop env initialLoopState).trace
          ++ (if (renderLoop env initialLoopState).ended = true then cleanup else []),
        status := if (renderLoop env initialLoopState).ended = true
          then some EXIT_SUCCESS else none } := by
  cases he : (renderLoop env initialLoopState).ended <;> simp [main, h, he]

theorem dispatch_shouldClose (w : Window) (e : InputEvent) :
    (dispatch w e).1.shouldClose ≠ 0 ↔ (w.shouldClose ≠ 0 ∨ e.closes = true) := by
  cases e with
  | key k sc a m =>
    simp only [dispatch, keyCallback, InputEvent.closes, decide_eq_true_eq]
    split <;> rename_i h
    · simp [glfwSetWindowShouldClose, GLFW_TRUE, h]
    · simp [h]
  | framebufferSize wd ht => simp [dispatch, framebufferSizeCallback, InputEvent.closes]
  | closeRequest => simp [dispatch, glfwSetWindowShouldClose, GLFW_TRUE, InputEvent.closes]

theorem pollEvents_shouldClose (es : List InputEvent) :
    ∀ (w : Window), (pollEvents es w).1.shouldClose ≠ 0 ↔
      (w.shouldClose ≠ 0 ∨ es.any InputEvent.closes = true) := by
  induction es with
  | nil => intro w; simp [pollEvents]
  | cons e es ih =>
    intro w
    simp only [pollEvents, ih, dispatch_shouldClose, List.any_cons, Bool.or_eq_true]
    tauto

theorem iteration_shouldClose (f : Frame) (s : LoopState) :
    (iteration f s).1.window.shouldClose ≠ 0 ↔
      (s.window.shouldClose ≠ 0 ∨ f.closes = true) := by
  simp only [iteration, Frame.closes]
  exact pollEvents_shouldClose _ _

/-- The loop is left once the flag is set, whatever the rest of the script. -/
theorem renderLoop_of_shouldClose (fs : List Frame) (s : LoopState)
    (h : s.window.shouldClose ≠ 0) :
    renderLoop fs s = { trace := [Call.glfwWindowShouldClose], ended := true, state := s } := by
  cases fs with
  | nil => simp [renderLoop, glfwWindowShouldClose, h]
  | cons f fs => simp [renderLoop, glfwWindowShouldClose, h]

/-- A script that holds a closing frame makes the loop end. -/
theorem renderLoop_ended (fs : List Frame) :
    ∀ (s : LoopState), (∃ f ∈ fs, f.closes = true) → (renderLoop fs s).ended = true := by
  induction fs with
  | nil => intro s h; simp at h
  | cons f fs ih =>
    intro s h
    by_cases hs : s.window.shouldClose ≠ 0
    · rw [renderLoop_of_shouldClose _ _ hs]
    · simp only [renderLoop, glfwWindowShouldClose, hs, if_false]
      by_cases hf : f.closes = true
      · rw [renderLoop_of_shouldClose _ _ ((iteration_shouldClose f s).2 (Or.inr hf))]
      · apply ih
        obtain ⟨g, hg, hgc⟩ := h
        rcases List.mem_cons.1 hg with hg | hg
        · rw [hg] at hgc; exact absurd hgc hf
        · exact ⟨g, hg, hgc⟩

theorem step_ok_of_setup_ok {o : Outcomes} (h : (setup o).2 = true) (s : Step) :
    Step.ok o s = true := by
  rcases setup_cases o with ⟨hc, hs⟩ | ⟨hc, hs⟩ | ⟨hc, hs⟩ | ⟨hc, hs⟩ | ⟨hc, hs⟩ | ⟨hc, hs⟩
    | ⟨hc, hs⟩ | ⟨hc, hs⟩ | ⟨hc, hs⟩ | ⟨hc, hs⟩ | ⟨hc, hs⟩
  all_goals first
    | (rw [hs] at h; simp at h; done)
    | (cases s <;> simp [Step.ok, hc])

/-- A failing set-up has reached a step that failed, and has made none of the
calls of the render loop. -/
theorem setup_failed_spec {o : Outcomes} (h : (setup o).2 = false) :
    (∃ s, reached (setup o).1 s = true ∧ Step.ok o s = false)
    ∧ (setup o).1.all (fun c => !isFrameCall c && !isLoopCondition c) = true := by
  rcases setup_cases o with ⟨hc, hs⟩ | ⟨hc, hs⟩ | ⟨hc, hs⟩ | ⟨hc, hs⟩ | ⟨hc, hs⟩ | ⟨hc, hs⟩
    | ⟨hc, hs⟩ | ⟨hc, hs⟩ | ⟨hc, hs⟩ | ⟨hc, hs⟩ | ⟨hc, hs⟩
  · rw [hs]; exact ⟨⟨Step.windowingInit, rfl, by simp [Step.ok, hc]⟩, rfl⟩
  · rw [hs]; exact ⟨⟨Step.windowCreation, rfl, by simp [Step.ok, hc]⟩, rfl⟩
  · rw [hs]; exact ⟨⟨Step.gpuLoader, rfl, by simp [Step.ok, hc]⟩, rfl⟩
  · rw [hs]; exact ⟨⟨Step.shaderFileRead, rfl, by simp [Step.ok, hc]⟩, rfl⟩
  · rw [hs]; exact ⟨⟨Step.shaderFileRead, rfl, by simp [Step.ok, hc]⟩, rfl⟩
  · rw [hs]; exact ⟨⟨Step.shaderFileRead, rfl, by simp [Step.ok, hc]⟩, rfl⟩
  · rw [hs]; exact ⟨⟨Step.shaderFileRead, rfl, by simp [Step.ok, hc]⟩, rfl⟩
  · rw [hs]; exact ⟨⟨Step.vertexCompile, rfl, by simp [Step.ok, hc]⟩, rfl⟩
  · rw [hs]; exact ⟨⟨Step.fragmentCompile, rfl, by simp [Step.ok, hc]⟩, rfl⟩
  · rw [hs]; exact ⟨⟨Step.programLink, rfl, by simp [Step.ok, hc]⟩, rfl⟩
  · rw [hs] at h; exact absurd h (by simp)

/-- C1: `main` returns the failure status exactly when a step it reaches
fails, and then no call of the render loop (loop condition, clear, uniform
upload, draw, UI frame, buffer swap) has been made; it returns the success
status only when every step succeeded and the loop was left.  The run always
returns when a step fails, and returns the success status when every step
succeeds and the window is asked to close during some frame. -/
theorem main_status (o : Outcomes) (env : List Frame) :
    ((main o env).status = some EXIT_FAILURE ↔
        ∃ s, reached (main o env).trace s = true ∧ Step.ok o s = false)
    ∧ ((main o env).status = some EXIT_FAILURE →
        ∀ c ∈ (main o env).trace, isFrameCall c = false ∧ isLoopCondition c = false)
    ∧ ((main o env).status = some EXIT_SUCCESS →
        (∀ s, Step.ok o s = true) ∧ (renderLoop env initialLoopState).ended = true)
    ∧ ((∃ s, Step.ok o s = false) → (main o env).status = some EXIT_FAILURE)
    ∧ ((∀ s, Step.ok o s = true) → (∃ f ∈ env, f.closes = true) →
        (main o env).status = some EXIT_SUCCESS) := by
  have hne : EXIT_SUCCESS ≠ EXIT_FAILURE := by decide
  cases h : (setup o).2
  · obtain ⟨⟨s, hr, hk⟩, hall⟩ := setup_failed_spec h
    rw [main_of_setup_failed env h]
    refine ⟨⟨fun _ => ⟨s, hr, hk⟩, fun _ => rfl⟩, ?_, ?_, fun _ => rfl, ?_⟩
    · intro _ c hc
      have := List.all_eq_true.1 hall c hc
      simpa using this
    · intro h1
      simp only [Option.some.injEq] at h1
      exact absurd h1.symm hne
    · intro hall2
      rw [hall2 s] at hk
      exact absurd hk (by simp)
  · have hok := step_ok_of_setup_ok h
    rw [main_of_setup_ok env h]
    refine ⟨⟨?_, ?_⟩, ?_, ?_, ?_, ?_⟩
    · intro h1
      split at h1
      · simp only [Option.some.injEq] at h1; exact absurd h1 hne
      · simp at h1
    · rintro ⟨s, _, hk⟩
      rw [hok s] at hk
      exact absurd hk (by simp)
    · intro h1
      split at h1
      · simp only [Option.some.injEq] at h1; exact absurd h1 hne
      · simp at h1
    · intro h1
      refine ⟨hok, ?_⟩
      by_contra hcon
      simp [hcon] at h1
    · rintro ⟨s, hk⟩
      rw [hok s] at hk
      exact absurd hk (by simp)
    · intro _ hcl
      simp [renderLoop_ended env initialLoopState hcl]

/-- C1 at a sample: a failing link gives the failure status with the loop never
entered, and a successful set-up followed by an Escape press gives the success
status. -/
theorem main_status_witness :
    (main linkFails [escapeFrame]).status = some EXIT_FAILURE
    ∧ (∀ c ∈ (main linkFails [escapeFrame]).trace,
        isFrameCall c = false ∧ isLoopCondition c = false)
    ∧ (main allOk [whiteFrame, escapeFrame]).status = some EXIT_SUCCESS :=
  ⟨(main_status linkFails [escapeFrame]).2.2.2.1 ⟨Step.programLink, rfl⟩,
   (main_status linkFails [escapeFrame]).2.1
     ((main_status linkFails [escapeFrame]).2.2.2.1 ⟨Step.programLink, rfl⟩),
   (main_status allOk [whiteFrame, escapeFrame]).2.2.2.2 (fun s => by cases s <;> rfl)
     ⟨escapeFrame, by simp, by decide⟩⟩

theorem setup_failed_of_status {o : Outcomes} {env : List Frame}
    (h : (main o env).status = some EXIT_FAILURE) :
    (setup o).2 = false ∧ (main o env).trace = (setup o).1 := by
  cases hs : (setup o).2
  · exact ⟨rfl, by rw [main_of_setup_failed env hs]⟩
  · rw [main_of_setup_ok env hs] at h
    exfalso
    split at h
    · simp only [Option.some.injEq] at h; exact absurd h (by decide)
    · simp at h

/-- What the calls of the render loop are not. -/
theorem of_isLoopCall {c : Call} (h : isLoopCall c = true) :
    isFileCall c = false ∧ isCerr c = false ∧ acquires c = [] ∧ releases c = []
    ∧ gpuCreated c = none ∧ gpuDeleted c = none ∧ isCompileShader c = false
    ∧ attempts c = none := by
  cases c <;> first
    | exact ⟨rfl, rfl, rfl, rfl, rfl, rfl, rfl, rfl⟩
    | exact absurd h (by simp [isLoopCall])

set_option maxHeartbeats 4000000 in
/-- The bookkeeping of GPU objects on a failing set-up. -/
theorem setup_failed_objects {o : Outcomes} (hf : (setup o).2 = false) (obj : Handle) :
    Nat.ble ((setup o).1.countP (isCreationOf obj)) 1 = true
    ∧ Nat.beq ((setup o).1.countP (isDeletionOf obj))
        ((setup o).1.countP (isCreationOf obj)) = true
    ∧ precededFrom (isCreationOf obj) (isDeletionOf obj) false (setup o).1 = true := by
  rcases setup_cases o with ⟨_, hs⟩ | ⟨_, hs⟩ | ⟨_, hs⟩ | ⟨_, hs⟩ | ⟨_, hs⟩ | ⟨_, hs⟩
    | ⟨_, hs⟩ | ⟨_, hs⟩ | ⟨_, hs⟩ | ⟨_, hs⟩ | ⟨_, hs⟩
  all_goals (rw [hs] at hf ⊢)
  iterate 10 (cases obj <;> exact ⟨rfl, rfl, rfl⟩)
  simp at hf

/-- C2: on every run that returns the failure status, each of the six GPU
objects is created at most once, is deleted as many times as it is created
(once if it was created, never if it was not), and is deleted only after it
was created. -/
theorem failing_run_deletes_what_it_created (o : Outcomes) (env : List Frame)
    (h : (main o env).status = some EXIT_FAILURE) (obj : Handle) :
    (main o env).trace.countP (isCreationOf obj) ≤ 1
    ∧ (main o env).trace.countP (isDeletionOf obj)
        = (main o env).trace.countP (isCreationOf obj)
    ∧ Preceded (isCreationOf obj) (isDeletionOf obj) (main o env).trace := by
  obtain ⟨hf, ht⟩ := setup_failed_of_status h
  rw [ht]
  obtain ⟨h1, h2, h3⟩ := setup_failed_objects hf obj
  exact ⟨Nat.le_of_ble_eq_true h1, Nat.eq_of_beq_eq_true h2, preceded_of_check _ _ _ h3⟩

/-- C2 at a sample: when the link fails, the program object has been created
once and deleted once, after its creation. -/
theorem failing_run_deletes_what_it_created_witness :
    (main linkFails []).status = some EXIT_FAILURE
    ∧ (main linkFails []).trace.countP (isCreationOf Handle.program) ≤ 1
    ∧ (main linkFails []).trace.countP (isDeletionOf Handle.program)
        = (main linkFails []).trace.countP (isCreationOf Handle.program)
    ∧ Preceded (isCreationOf Handle.program) (isDeletionOf Handle.program)
        (main linkFails []).trace :=
  ⟨rfl, failing_run_deletes_what_it_created linkFails [] rfl Handle.program⟩

/-- C4 as stated fails: when the link fails, the two shader objects are
deleted before the diagnostic message is written. -/
theorem message_after_shader_release :
    (main linkFails []).status = some EXIT_FAILURE
    ∧ ¬ NoneBefore releasesSomething isCerr (main linkFails []).trace :=
  ⟨rfl, not_noneBefore_of_check _ _ _ rfl⟩

set_option maxHeartbeats 4000000 in
/-- The message of a failing set-up: written once, after no release other than
that of a shader object, and after no release at all unless the link step
was reached. -/
theorem setup_failed_message {o : Outcomes} (hf : (setup o).2 = false) :
    (setup o).1.countP isCerr = 1
    ∧ noneBeforeFrom (fun c => releasesSomething c && !isDeleteShader c) isCerr false
        (setup o).1 = true
    ∧ (reached (setup o).1 Step.programLink
        || noneBeforeFrom releasesSomething isCerr false (setup o).1) = true := by
  rcases setup_cases o with ⟨_, hs⟩ | ⟨_, hs⟩ | ⟨_, hs⟩ | ⟨_, hs⟩ | ⟨_, hs⟩ | ⟨_, hs⟩
    | ⟨_, hs⟩ | ⟨_, hs⟩ | ⟨_, hs⟩ | ⟨_, hs⟩ | ⟨_, hs⟩
  all_goals (rw [hs] at hf ⊢)
  iterate 10 exact ⟨rfl, rfl, rfl⟩
  simp at hf

/-- A set-up that reaches the loop writes nothing to standard error. -/
theorem setup_ok_silent {o : Outcomes} (hf : (setup o).2 = true) :
    (setup o).1.countP isCerr = 0 := by
  rcases setup_cases o with ⟨_, hs⟩ | ⟨_, hs⟩ | ⟨_, hs⟩ | ⟨_, hs⟩ | ⟨_, hs⟩ | ⟨_, hs⟩
    | ⟨_, hs⟩ | ⟨_, hs⟩ | ⟨_, hs⟩ | ⟨_, hs⟩ | ⟨_, hs⟩
  all_goals (rw [hs] at hf ⊢)
  iterate 10 (simp at hf)
  rfl

/-- C4, amended: a run that returns the failure status writes exactly one
message to standard error; no windowing, UI or GPU resource other than a
shader object is released before the message, and when the link step was not
reached nothing at all is released before it.  A run in which every step
succeeds writes nothing to standard error. -/
theorem failure_message (o : Outcomes) (env : List Frame) :
    ((main o env).status = some EXIT_FAILURE →
        (main o env).trace.countP isCerr = 1
        ∧ NoneBefore (fun c => releasesSomething c && !isDeleteShader c) isCerr
            (main o env).trace
        ∧ (reached (main o env).trace Step.programLink = false →
            NoneBefore releasesSomething isCerr (main o env).trace))
    ∧ ((∀ s, Step.ok o s = true) → (main o env).trace.countP isCerr = 0) := by
  constructor
  · intro h
    obtain ⟨hf, ht⟩ := setup_failed_of_status h
    rw [ht]
    obtain ⟨h1, h2, h3⟩ := setup_failed_message hf
    refine ⟨h1, noneBefore_of_check _ _ _ h2, fun hr => noneBefore_of_check _ _ _ ?_⟩
    rw [hr] at h3
    simpa using h3
  · intro hall
    cases hs2 : (setup o).2
    · obtain ⟨⟨s, _, hk⟩, _⟩ := setup_failed_spec hs2
      rw [hall s] at hk
      exact absurd hk (by simp)
    · rw [main_of_setup_ok env hs2]
      have hloop : (renderLoop env initialLoopState).trace.countP isCerr = 0 :=
        List.countP_eq_zero.2 (fun c hc => by
          rw [(of_isLoopCall (renderLoop_calls env _ c hc)).2.1]; simp)
      simp only [List.countP_append, hloop, setup_ok_silent hs2]
      split <;> rfl

/-- C4, amended, at samples: a failing link writes one message, a failing
fragment compilation writes it before any release, and a successful run
writes nothing. -/
theorem failure_message_witness :
    (main linkFails []).trace.countP isCerr = 1
    ∧ NoneBefore (fun c => releasesSomething c && !isDeleteShader c) isCerr
        (main linkFails []).trace
    ∧ (main allOk [escapeFrame]).trace.countP isCerr = 0 :=
  ⟨((failure_message linkFails []).1 rfl).1,
   ((failure_message linkFails []).1 rfl).2.1,
   (failure_message allOk [escapeFrame]).2 (fun s => by cases s <;> rfl)⟩

theorem takeWhile_append_cons (p : Call → Bool) (a b : List Call) (c : Call)
    (ha : ∀ x ∈ a, p x = true) (hc : p c = false) :
    (a ++ c :: b).takeWhile p = a := by
  induction a with
  | nil => simp [List.takeWhile, hc]
  | cons x a ih =>
    simp only [List.cons_append, List.takeWhile_cons, ha x (List.mem_cons_self _ _), if_true]
    rw [ih (fun y hy => ha y (List.mem_cons_of_mem _ hy))]

theorem dropWhile_append_cons (p : Call → Bool) (a b : List Call) (c : Call)
    (ha : ∀ x ∈ a, p x = true) (hc : p c = false) :
    (a ++ c :: b).dropWhile p = c :: b := by
  induction a with
  | nil => simp [List.dropWhile, hc]
  | cons x a ih =>
    simp only [List.cons_append, List.dropWhile_cons, ha x (List.mem_cons_self _ _), if_true]
    exact ih (fun y hy => ha y (List.mem_cons_of_mem _ hy))

theorem afterLoop_append (a b : List Call) (hb : ∀ x ∈ b, isLoopCondition x = false) :
    afterLoop (a ++ Call.glfwWindowShouldClose :: b) = b := by
  unfold afterLoop
  rw [List.reverse_append, List.reverse_cons, List.append_assoc, List.singleton_append,
    takeWhile_append_cons _ _ _ _ (fun x hx => by simp [hb x (List.mem_reverse.1 hx)]) rfl,
    List.reverse_reverse]

theorem throughLoop_append (a b : List Call) (hb : ∀ x ∈ b, isLoopCondition x = false) :
    throughLoop (a ++ Call.glfwWindowShouldClose :: b) = a ++ [Call.glfwWindowShouldClose] := by
  unfold throughLoop
  rw [List.reverse_append, List.reverse_cons, List.append_assoc, List.singleton_append,
    dropWhile_append_cons _ _ _ _ (fun x hx => by simp [hb x (List.mem_reverse.1 hx)]) rfl]
  simp

/-- Calls that acquire and release nothing do not show in the two orders. -/
theorem orders_append_neutral (a l : List Call)
    (hl : ∀ c ∈ l, acquires c = [] ∧ releases c = []) :
    acquireOrder (a ++ l) = acquireOrder a ∧ releaseOrder (a ++ l) = releaseOrder a := by
  induction l generalizing a with
  | nil => simp
  | cons c l ih =>
    have hc := hl c (List.mem_cons_self _ _)
    have h2 := ih (a ++ [c]) (fun x hx => hl x (List.mem_cons_of_mem _ hx))
    simp only [List.append_assoc, List.singleton_append] at h2
    rw [h2.1, h2.2]
    simp [acquireOrder, releaseOrder, hc.1, hc.2]

theorem setup_ok_of_status {o : Outcomes} {env : List Frame}
    (h : (main o env).status = some EXIT_SUCCESS) :
    (setup o).2 = true ∧ (renderLoop env initialLoopState).ended = true
    ∧ (main o env).trace = (setup o).1 ++ (renderLoop env initialLoopState).trace ++ cleanup := by
  cases hs : (setup o).2
  · rw [main_of_setup_failed env hs] at h
    simp only [Option.some.injEq] at h
    exact absurd h (by decide)
  · rw [main_of_setup_ok env hs] at h ⊢
    cases he : (renderLoop env initialLoopState).ended
    · simp [he] at h
    · simp

set_option maxHeartbeats 4000000 in
/-- The resources held when a successful set-up is over, and after the Cleanup
region has run from there. -/
theorem setup_ok_held {o : Outcomes} (hf : (setup o).2 = true) :
    held (setup o).1 =
      [Resource.windowing, Resource.window, Resource.uiContext, Resource.uiPlatformBackend,
       Resource.uiRendererBackend, Resource.gpu Handle.VAO, Resource.gpu Handle.VBO,
       Resource.gpu Handle.EBO, Resource.gpu Handle.program]
    ∧ held ((setup o).1 ++ cleanup) = [] := by
  rcases setup_cases o with ⟨_, hs⟩ | ⟨_, hs⟩ | ⟨_, hs⟩ | ⟨_, hs⟩ | ⟨_, hs⟩ | ⟨_, hs⟩
    | ⟨_, hs⟩ | ⟨_, hs⟩ | ⟨_, hs⟩ | ⟨_, hs⟩ | ⟨_, hs⟩
  all_goals (rw [hs] at hf ⊢)
  iterate 10 (simp at hf)
  exact ⟨rfl, rfl⟩

set_option maxRecDepth 100000 in
/-- C3 as stated fails: on a successful run the releases of the teardown are
not the reverse of the order in which the resources still held were acquired. -/
theorem teardown_not_reverse_of_acquisition :
    (main allOk [escapeFrame]).status = some EXIT_SUCCESS
    ∧ releaseOrder (afterLoop (main allOk [escapeFrame]).trace)
        ≠ (held (throughLoop (main allOk [escapeFrame]).trace)).reverse :=
  ⟨rfl, by decide⟩

/-- C3, amended: on a run that returns the success status the calls after the
loop are those of the Cleanup region.  The resources held when the loop is
left are, in order of acquisition, the windowing library, the window, the UI
context, the UI platform backend, the UI renderer backend and the GPU objects
VAO, VBO, EBO and program.  The teardown releases the UI backends and the UI
context first, in reverse of their initialization order, then the GPU objects
in the order VAO, VBO, EBO, program, and the window and windowing library
last; after it nothing is held. -/
theorem teardown_order (o : Outcomes) (env : List Frame)
    (h : (main o env).status = some EXIT_SUCCESS) :
    afterLoop (main o env).trace = cleanup
    ∧ held (throughLoop (main o env).trace) =
        [Resource.windowing, Resource.window, Resource.uiContext,
         Resource.uiPlatformBackend, Resource.uiRendererBackend, Resource.gpu Handle.VAO,
         Resource.gpu Handle.VBO, Resource.gpu Handle.EBO, Resource.gpu Handle.program]
    ∧ releaseOrder (afterLoop (main o env).trace) =
        [Resource.uiRendererBackend, Resource.uiPlatformBackend, Resource.uiContext,
         Resource.gpu Handle.VAO, Resource.gpu Handle.VBO, Resource.gpu Handle.EBO,
         Resource.gpu Handle.program, Resource.window, Resource.windowing]
    ∧ held (main o env).trace = [] := by
  obtain ⟨hs, _, ht⟩ := setup_ok_of_status h
  obtain ⟨init, hinit⟩ := renderLoop_trace_last env initialLoopState
  have hcl : ∀ x ∈ cleanup, isLoopCondition x = false := by
    intro x hx
    have := List.all_eq_true.1 (show cleanup.all (fun c => !isLoopCondition c) = true from rfl) x hx
    simpa using this
  have hneutral : ∀ c ∈ (renderLoop env initialLoopState).trace,
      acquires c = [] ∧ releases c = [] := fun c hc =>
    ⟨(of_isLoopCall (renderLoop_calls env _ c hc)).2.2.1,
     (of_isLoopCall (renderLoop_calls env _ c hc)).2.2.2.1⟩
  have hord := orders_append_neutral (setup o).1 _ hneutral
  have ht2 : (main o env).trace
      = ((setup o).1 ++ init) ++ Call.glfwWindowShouldClose :: cleanup := by
    rw [ht, hinit]; simp
  have hafter : afterLoop (main o env).trace = cleanup := by
    rw [ht2]; exact afterLoop_append _ _ hcl
  have hthrough : throughLoop (main o env).trace
      = (setup o).1 ++ (renderLoop env initialLoopState).trace := by
    rw [ht2, throughLoop_append _ _ hcl, hinit]; simp
  refine ⟨hafter, ?_, ?_, ?_⟩
  · rw [hthrough, ← (setup_ok_held hs).1]
    unfold held
    rw [hord.1, hord.2]
  · rw [hafter]; rfl
  · rw [ht, ← (setup_ok_held hs).2]
    unfold held
    have e1 : acquireOrder ((setup o).1 ++ (renderLoop env initialLoopState).trace ++ cleanup)
        = acquireOrder ((setup o).1 ++ cleanup) := by
      simp only [acquireOrder, List.map_append, List.flatten_append] at hord ⊢
      rw [hord.1]
    have e2 : releaseOrder ((setup o).1 ++ (renderLoop env initialLoopState).trace ++ cleanup)
        = releaseOrder ((setup o).1 ++ cleanup) := by
      simp only [releaseOrder, List.map_append, List.flatten_append] at hord ⊢
      rw [hord.2]
    rw [e1, e2]

/-- C3, amended, at a sample: a successful run that ends with an Escape press. -/
theorem teardown_order_witness :
    afterLoop (main allOk [escapeFrame]).trace = cleanup
    ∧ held (main allOk [escapeFrame]).trace = [] :=
  ⟨(teardown_order allOk [escapeFrame] rfl).1, (teardown_order allOk [escapeFrame] rfl).2.2.2⟩

/-! ### The shape of a run -/

/-- What the calls of the Cleanup region are not. -/
theorem of_mem_cleanup {c : Call} (h : c ∈ cleanup) :
    isFileCall c = false ∧ isCerr c = false ∧ isCompileShader c = false
    ∧ isLoopCondition c = false ∧ loopStep c = none := by
  have := List.all_eq_true.1
    (show cleanup.all (fun c => !isFileCall c && (!isCerr c && (!isCompileShader c
      && (!isLoopCondition c && decide (loopStep c = none))))) = true from rfl) c h
  simpa using this

theorem filterMap_eq_nil_of {β : Type} (g : Call → Option β) (l : List Call)
    (h : ∀ c ∈ l, g c = none) : l.filterMap g = [] := by
  induction l with
  | nil => rfl
  | cons c l ih =>
    rw [List.filterMap_cons, h c (List.mem_cons_self _ _)]
    exact ih (fun x hx => h x (List.mem_cons_of_mem _ hx))

theorem pollEvents_no_loopStep (es : List InputEvent) (w : Window) :
    (pollEvents es w).2.filterMap loopStep = [] := by
  apply filterMap_eq_nil_of
  intro c hc
  rcases pollEvents_calls es w c hc with h | ⟨wd, ht, h⟩ <;> subst h <;> rfl

theorem iteration_loopSteps (f : Frame) (s : LoopState) :
    (iteration f s).2.filterMap loopStep =
      [LoopStep.buildPanel, LoopStep.pollInput, LoopStep.clearScreen, LoopStep.setUniform,
       LoopStep.drawIndices, LoopStep.renderUI, LoopStep.swapBuffers] := by
  simp only [iteration, List.filterMap_append, pollEvents_no_loopStep, imguiEditor]
  split <;> rfl

theorem renderLoop_loopSteps (fs : List Frame) :
    ∀ (s : LoopState), ∃ k, (renderLoop fs s).trace.filterMap loopStep =
      (List.replicate k
        [LoopStep.buildPanel, LoopStep.pollInput, LoopStep.clearScreen, LoopStep.setUniform,
         LoopStep.drawIndices, LoopStep.renderUI, LoopStep.swapBuffers]).flatten := by
  induction fs with
  | nil => intro s; exact ⟨0, rfl⟩
  | cons f fs ih =>
    intro s
    simp only [renderLoop]
    split
    · exact ⟨0, rfl⟩
    · obtain ⟨k, hk⟩ := ih (iteration f s).1
      refine ⟨k + 1, ?_⟩
      rw [List.cons_append, List.filterMap_cons, List.filterMap_append, hk,
        iteration_loopSteps, List.replicate_succ, List.flatten_cons]
      rfl

set_option maxHeartbeats 4000000 in
/-- The set-up performs none of the steps of an iteration. -/
theorem setup_no_loopStep (o : Outcomes) : (setup o).1.filterMap loopStep = [] := by
  rcases setup_cases o with ⟨_, hs⟩ | ⟨_, hs⟩ | ⟨_, hs⟩ | ⟨_, hs⟩ | ⟨_, hs⟩ | ⟨_, hs⟩
    | ⟨_, hs⟩ | ⟨_, hs⟩ | ⟨_, hs⟩ | ⟨_, hs⟩ | ⟨_, hs⟩
  all_goals (rw [hs]; rfl)

/-- C6 as stated fails: in an iteration the UI panel is built before the input
events are polled, so the steps do not come in the order poll, panel, clear,
uniform, draw, UI render, swap. -/
theorem iteration_not_poll_first :
    (iteration escapeFrame initialLoopState).2.filterMap loopStep
      ≠ [LoopStep.pollInput, LoopStep.buildPanel, LoopStep.clearScreen, LoopStep.setUniform,
         LoopStep.drawIndices, LoopStep.renderUI, LoopStep.swapBuffers] := by
  rw [iteration_loopSteps]
  decide

/-- C6, amended: every iteration of the render loop performs its seven steps
in the order: build the UI panel, poll input events, clear the screen, set the
uniform, draw 6 indices, render the UI, swap buffers; each step happens exactly
once per iteration, and a whole run performs these steps in whole rounds of
this order and at no other time. -/
theorem iteration_order (o : Outcomes) (env : List Frame) :
    (∀ (f : Frame) (s : LoopState),
        (iteration f s).2.filterMap loopStep =
          [LoopStep.buildPanel, LoopStep.pollInput, LoopStep.clearScreen,
           LoopStep.setUniform, LoopStep.drawIndices, LoopStep.renderUI,
           LoopStep.swapBuffers]
        ∧ Call.glDrawElements GLenum.GL_TRIANGLES 6 GLenum.GL_UNSIGNED_INT 0
            ∈ (iteration f s).2)
    ∧ ∃ k, (main o env).trace.filterMap loopStep =
        (List.replicate k
          [LoopStep.buildPanel, LoopStep.pollInput, LoopStep.clearScreen,
           LoopStep.setUniform, LoopStep.drawIndices, LoopStep.renderUI,
           LoopStep.swapBuffers]).flatten := by
  constructor
  · intro f s
    exact ⟨iteration_loopSteps f s, by simp [iteration]⟩
  · cases hs : (setup o).2
    · exact ⟨0, by rw [main_of_setup_failed env hs]; exact setup_no_loopStep o⟩
    · obtain ⟨k, hk⟩ := renderLoop_loopSteps env initialLoopState
      refine ⟨k, ?_⟩
      rw [main_of_setup_ok env hs]
      simp only [List.filterMap_append, setup_no_loopStep, hk, List.nil_append]
      split
      · rw [filterMap_eq_nil_of loopStep cleanup (fun c hc => (of_mem_cleanup hc).2.2.2.2)]
        simp
      · simp

/-! ### The background colour -/

theorem pollEvents_no_upload (es : List InputEvent) :
    ∀ (w : Window), uploads (pollEvents es w).2 = [] := by
  induction es with
  | nil => intro w; rfl
  | cons e es ih =>
    intro w
    have happ : ∀ (a b : List Call), uploads a = [] → uploads (a ++ b) = uploads b := by
      intro a
      induction a with
      | nil => intro b _; rfl
      | cons c a iha =>
        intro b h
        cases c <;> first
          | (simp only [uploads] at h ⊢; exact iha b h)
          | (simp [uploads] at h)
    simp only [pollEvents]
    rw [happ _ _ ?_, ih]
    cases e with
    | key k sc a m =>
      simp only [dispatch, keyCallback]
      split <;> rfl
    | framebufferSize wd ht => rfl
    | closeRequest => rfl

theorem uploads_append (a b : List Call) : uploads (a ++ b) = uploads a ++ uploads b := by
  induction a with
  | nil => rfl
  | cons c a ih =>
    cases c <;> simp [uploads, ih]

theorem iteration_uploads (f : Frame) (s : LoopState) :
    uploads (iteration f s).2 =
      [(f.uniformLocation, (iteration f s).1.backgroundColor 0,
        (iteration f s).1.backgroundColor 1, (iteration f s).1.backgroundColor 2)] := by
  simp only [iteration, uploads_append, pollEvents_no_upload, imguiEditor]
  split <;> rfl

/-- C8: the colour vector starts as (0, 0, 0) and the loop is entered with it.
Every iteration makes exactly one uniform upload; it goes to the location
just looked up under the name "backgroundColor", after the UI panel of the
iteration has been closed, and its three arguments are elements 0, 1 and 2 of
the vector as the panel left it.  The vector after the iteration is what the
colour picker left (the vector itself when the panel is collapsed), so an
iteration whose picker leaves it unchanged uploads the values of the previous
iteration; the loop hands the vector on from one iteration to the next. -/
theorem background_color_upload (f : Frame) (s : LoopState) :
    (∀ i, backgroundColorInit i = 0)
    ∧ initialLoopState.backgroundColor = backgroundColorInit
    ∧ uploads (iteration f s).2 =
        [(f.uniformLocation, (iteration f s).1.backgroundColor 0,
          (iteration f s).1.backgroundColor 1, (iteration f s).1.backgroundColor 2)]
    ∧ (∃ pre post, (iteration f s).2 =
        pre ++ [Call.glGetUniformLocation Handle.program "backgroundColor",
                Call.glUniform3f f.uniformLocation ((iteration f s).1.backgroundColor 0)
                  ((iteration f s).1.backgroundColor 1)
                  ((iteration f s).1.backgroundColor 2)] ++ post
        ∧ Call.ImGui_End ∈ pre ∧ uploads pre = [] ∧ uploads post = [])
    ∧ (iteration f s).1.backgroundColor =
        (if f.beginOpen = true then f.colorPicker3 s.backgroundColor else s.backgroundColor)
    ∧ (∀ g : Frame,
        (if g.beginOpen = true then g.colorPicker3 (iteration f s).1.backgroundColor
          else (iteration f s).1.backgroundColor) = (iteration f s).1.backgroundColor →
        (uploads (iteration g (iteration f s).1).2).map (fun u => u.2)
          = (uploads (iteration f s).2).map (fun u => u.2))
    ∧ (∀ fs : List Frame, glfwWindowShouldClose s.window = 0 →
        (renderLoop (f :: fs) s).trace =
          Call.glfwWindowShouldClose :: (iteration f s).2
            ++ (renderLoop fs (iteration f s).1).trace) := by
  have hcolor : ∀ (g : Frame) (t : LoopState), (iteration g t).1.backgroundColor =
      (if g.beginOpen = true then g.colorPicker3 t.backgroundColor else t.backgroundColor) := by
    intro g t
    simp only [iteration, imguiEditor]
    cases g.beginOpen <;> simp
  refine ⟨?_, rfl, iteration_uploads f s, ?_, hcolor f s, ?_, ?_⟩
  · intro i
    fin_cases i <;> rfl
  · refine ⟨[Call.ImGui_ImplOpenGL3_NewFrame, Call.ImGui_ImplGlfw_NewFrame, Call.ImGui_NewFrame]
        ++ (imguiEditor f s.backgroundColor).2 ++ [Call.glfwPollEvents]
        ++ (pollEvents f.events s.window).2
        ++ [Call.glClearColor 1 0 0 1, Call.glClear GLenum.GL_COLOR_BUFFER_BIT,
            Call.glUseProgram Handle.program],
      [Call.glBindVertexArray (some Handle.VAO),
       Call.glBindBuffer GLenum.GL_ELEMENT_ARRAY_BUFFER (some Handle.EBO),
       Call.glDrawElements GLenum.GL_TRIANGLES 6 GLenum.GL_UNSIGNED_INT 0,
       Call.ImGui_Render, Call.ImGui_GetDrawData, Call.ImGui_ImplOpenGL3_RenderDrawData,
       Call.glfwSwapBuffers], ?_, ?_, ?_, rfl⟩
    · simp [iteration]
    · simp only [imguiEditor]
      split <;> simp
    · simp only [uploads_append, pollEvents_no_upload, imguiEditor]
      split <;> rfl
  · intro g hg
    rw [iteration_uploads, iteration_uploads, hcolor g, hg]
    rfl
  · intro fs hopen
    simp [renderLoop, hopen]

/-- C8 at a sample: after a frame in which white was picked, a frame whose
picker leaves the vector alone uploads white again. -/
theorem background_color_upload_witness :
    (uploads (iteration escapeFrame (iteration whiteFrame initialLoopState).1).2).map
        (fun u => u.2)
      = (uploads (iteration whiteFrame initialLoopState).2).map (fun u => u.2) :=
  (background_color_upload whiteFrame initialLoopState).2.2.2.2.2.1 escapeFrame rfl

/-! ### The key callback -/

/-- C9: `keyCallback` asks for the window to close exactly on an Escape press:
then it sets the should-close flag to `GLFW_TRUE` through
`glfwSetWindowShouldClose`, and for every other input it makes no call and
leaves the window as it is.  It never clears the flag; neither does the rest of
an iteration, and once the flag is set the loop condition is false: the loop is
left without another iteration, whatever input is still to come. -/
theorem keyCallback_closes_on_escape_press (window : Window) (key scancode action mods : Int) :
    ((key = GLFW_KEY_ESCAPE ∧ action = GLFW_PRESS) →
        keyCallback window key scancode action mods =
          (glfwSetWindowShouldClose window GLFW_TRUE, [Call.glfwSetWindowShouldClose GLFW_TRUE])
        ∧ glfwWindowShouldClose (keyCallback window key scancode action mods).1 ≠ 0)
    ∧ (¬ (key = GLFW_KEY_ESCAPE ∧ action = GLFW_PRESS) →
        keyCallback window key scancode action mods = (window, []))
    ∧ (Call.glfwSetWindowShouldClose GLFW_TRUE ∈ (keyCallback window key scancode action mods).2
        ↔ (key = GLFW_KEY_ESCAPE ∧ action = GLFW_PRESS))
    ∧ (glfwWindowShouldClose window ≠ 0 →
        glfwWindowShouldClose (keyCallback window key scancode action mods).1 ≠ 0)
    ∧ (∀ (f : Frame) (s : LoopState), glfwWindowShouldClose s.window ≠ 0 →
        glfwWindowShouldClose (iteration f s).1.window ≠ 0)
    ∧ (∀ (fs : List Frame) (s : LoopState), glfwWindowShouldClose s.window ≠ 0 →
        renderLoop fs s =
          { trace := [Call.glfwWindowShouldClose], ended := true, state := s }) := by
  refine ⟨?_, ?_, ?_, ?_, ?_, ?_⟩
  · intro h
    simp [keyCallback, h, glfwWindowShouldClose, glfwSetWindowShouldClose, GLFW_TRUE]
  · intro h
    simp [keyCallback, h]
  · by_cases h : key = GLFW_KEY_ESCAPE ∧ action = GLFW_PRESS
    · simp [keyCallback, h]
    · simp [keyCallback, h]
  · intro h
    by_cases h2 : key = GLFW_KEY_ESCAPE ∧ action = GLFW_PRESS
    · simp [keyCallback, h2, glfwWindowShouldClose, glfwSetWindowShouldClose, GLFW_TRUE]
    · simpa [keyCallback, h2] using h
  · intro f s h
    exact (iteration_shouldClose f s).2 (Or.inl h)
  · intro fs s h
    exact renderLoop_of_shouldClose fs s h

/-- C9 at a sample: an Escape press on an open window. -/
theorem keyCallback_closes_on_escape_press_witness :
    keyCallback { shouldClose := 0 } GLFW_KEY_ESCAPE 9 GLFW_PRESS 0 =
        (glfwSetWindowShouldClose { shouldClose := 0 } GLFW_TRUE,
         [Call.glfwSetWindowShouldClose GLFW_TRUE])
    ∧ glfwWindowShouldClose (keyCallback { shouldClose := 0 } GLFW_KEY_ESCAPE 9 GLFW_PRESS 0).1
        ≠ 0 :=
  (keyCallback_closes_on_escape_press { shouldClose := 0 } GLFW_KEY_ESCAPE 9 GLFW_PRESS 0).1
    ⟨rfl, rfl⟩

/-! ### The quad -/

/-- C10: the quad geometry is well-formed for the draw call.  The index array
has 6 entries, which is the count the per-frame `glDrawElements` call passes;
the vertex array holds 4 three-component vertices, uploaded with a
three-component attribute layout; every index is below 4; each of the two
index triples names three distinct vertices; the four corners (1,1), (1,-1),
(-1,-1), (-1,1) are all referenced, and every referenced vertex is one of
them, in the plane z = 0. -/
theorem quad_geometry_well_formed :
    indices.length = 6
    ∧ (∀ (f : Frame) (s : LoopState),
        Call.glDrawElements GLenum.GL_TRIANGLES indices.length GLenum.GL_UNSIGNED_INT 0
          ∈ (iteration f s).2)
    ∧ (∀ (f : Frame) (s : LoopState) (mode ty : GLenum) (count offset : Nat),
        Call.glDrawElements mode count ty offset ∈ (iteration f s).2 → count = indices.length)
    ∧ vertices.length = 3 * 4
    ∧ vertexCount = 4
    ∧ Call.glBufferData GLenum.GL_ARRAY_BUFFER 48 (BufferData.floats vertices)
        GLenum.GL_STATIC_DRAW ∈ createMesh
    ∧ Call.glBufferData GLenum.GL_ELEMENT_ARRAY_BUFFER 24 (BufferData.uints indices)
        GLenum.GL_STATIC_DRAW ∈ createMesh
    ∧ Call.glVertexAttribPointer 0 3 GLenum.GL_FLOAT false 12 0 ∈ createMesh
    ∧ (∀ i ∈ indices, i < vertexCount)
    ∧ (indices.take 3).Nodup
    ∧ (indices.drop 3).Nodup
    ∧ (indices.take 3).length = 3
    ∧ (indices.drop 3).length = 3
    ∧ (∀ p ∈ [((1 : GLfloat), (1 : GLfloat)), (1, -1), (-1, -1), (-1, 1)],
        ∃ i ∈ indices, vertexPosition i = (p.1, p.2, 0))
    ∧ (∀ i ∈ indices,
        ((vertexPosition i).1, (vertexPosition i).2.1)
          ∈ [((1 : GLfloat), (1 : GLfloat)), (1, -1), (-1, -1), (-1, 1)]) := by
  refine ⟨rfl, ?_, ?_, rfl, rfl, ?_, ?_, ?_, ?_, ?_, ?_, rfl, rfl, ?_, ?_⟩
  · intro f s
    simp [iteration, indices]
  · intro f s mode ty count offset h
    simp only [iteration, List.mem_append] at h
    rcases h with (((h | h) | h) | h) | h
    · simp at h
    · simp only [imguiEditor] at h
      split at h <;> simp at h
    · simp at h
    · rcases pollEvents_calls _ _ _ h with h | ⟨wd, ht, h⟩ <;> simp at h
    · simp at h
      simp [indices, h.2.1]
  · simp [createMesh, sizeofScalar, vertices]
  · simp [createMesh, sizeofScalar, indices]
  · simp [createMesh, sizeofScalar]
  · decide
  · decide
  · decide
  · decide
  · decide

/-- C10 at a sample: index 3 is in range, and a draw call of an iteration
passes the length of the index array. -/
theorem quad_geometry_well_formed_witness :
    3 < vertexCount
    ∧ (6 : Nat) = indices.length :=
  ⟨quad_geometry_well_formed.2.2.2.2.2.2.2.2.1 3 (by decide),
   quad_geometry_well_formed.2.2.1 escapeFrame initialLoopState GLenum.GL_TRIANGLES
     GLenum.GL_UNSIGNED_INT 6 0 (quad_geometry_well_formed.2.1 escapeFrame initialLoopState)⟩

end TornadoSimulation
